import Mathlib

/-!
Verification development for the ext library's result/option core
(src/include/ext/result.hpp, src/include/ext/option.hpp and the
storage/lifecycle machinery under src/include/ext/detail/).

The development is a shallow embedding:

* The public class result<T,E> is embedded as an inductive sum whose
  constructor tag is the discriminant (result_status) and whose payload is
  the live union alternative.  This matches the documented invariant that
  the discriminant and the populated alternative never disagree for any
  constructed result.
* The fallible accessors value() / error() throw bad_result_access on the
  wrong state; they are embedded as functions into Except.
* The storage/lifecycle layer (result_storage, result_copy_constructor_base,
  result_move_constructor_base, option_storage, option_copy_assignment) is
  embedded with an explicit raw union slot that can also be uninitialized
  (the skip_init construction path); reading a dead union member is
  undefined behaviour in the source and is modelled by Option-valued raw
  reads.  A well-formedness predicate wf states that the discriminant and
  the live alternative agree.
-/

namespace ext

/-- Embedding of enum class result_status (result_storage.hpp, lines 20-24).
The first enumerator is failure, so value-initialization of the underlying
char8_t yields failure. -/
inductive result_status where
  | failure
  | success
deriving DecidableEq, Repr

/-- Embedding of the exception type bad_result_access (result.hpp, lines
23-25).  The class carries no data. -/
structure bad_result_access where

/-- Public model of result<T,E> (result.hpp).  The constructor tag is the
discriminant, the argument the live union alternative. -/
inductive result (T E : Type) where
  | success (v : T)
  | failure (e : E)
deriving DecidableEq, Repr

namespace result

variable {T E U W : Type}

/-- result<T,E>::status() (result.hpp, lines 603-607): returns the
discriminant. -/
def status : result T E → result_status
  | .success _ => result_status.success
  | .failure _ => result_status.failure

/-- result<T,E>::is_success() (result.hpp, lines 609-613):
status == result_status::success. -/
def is_success (r : result T E) : Bool :=
  r.status == result_status.success

/-- result<T,E>::is_failure() (result.hpp, lines 615-619):
status == result_status::failure. -/
def is_failure (r : result T E) : Bool :=
  r.status == result_status.failure

/-- result<T,E>::operator bool (result.hpp, lines 749-753):
status == result_status::success. -/
def toBool (r : result T E) : Bool :=
  r.status == result_status.success

/-- result<T,E>::value() (result.hpp, lines 621-641): throws
bad_result_access when the status is not success, otherwise returns the
contained value (the live union member). -/
def value : result T E → Except bad_result_access T
  | .success v => Except.ok v
  | .failure _ => Except.error ⟨⟩

/-- result<T,E>::error() (result.hpp, lines 709-717): throws
bad_result_access when the result is success (operator bool), otherwise
returns the contained error. -/
def error : result T E → Except bad_result_access E
  | .success _ => Except.error ⟨⟩
  | .failure e => Except.ok e

/-- result<T,E>::map (const-lvalue overload, result.hpp, lines 755-775):
branch on operator bool; on success wrap f applied to value(), on failure
build a failure result from error().  The throwing accessors thread through
Except. -/
def map (r : result T E) (f : T → U) : Except bad_result_access (result U E) :=
  if r.toBool then (r.value).map (fun v => result.success (f v))
  else (r.error).map (fun e => result.failure e)

/-- result<T,E>::bind (const-lvalue overload, result.hpp, lines 841-853):
on success return f applied to value() directly; on failure build a failure
result from error(). -/
def bind (r : result T E) (f : T → result U E) : Except bad_result_access (result U E) :=
  if r.toBool then (r.value).map f
  else (r.error).map (fun e => result.failure e)

/-- result<T,E>::apply (const-lvalue overload, result.hpp, lines 895-923):
if this result is failure, return a failure carrying its error; otherwise
if rhs is failure, return a failure carrying rhs's error; otherwise apply
the function contained in rhs to the contained value. -/
def apply (r : result T E) (rhs : result (T → U) E) : Except bad_result_access (result U E) :=
  if !r.toBool then (r.error).map (fun e => result.failure e)
  else if !rhs.toBool then (rhs.error).map (fun e => result.failure e)
  else do
    let f ← rhs.value
    let v ← r.value
    pure (result.success (f v))

end result

/-- Raw union of the storage layer (result_storage.hpp): the union member
that is currently live, or uninitialized (the state left by the skip_init
constructor before construct_value / construct_error runs). -/
inductive result_slot (V E : Type) where
  | value (v : V)
  | error (e : E)
  | uninit
deriving DecidableEq, Repr

/-- Embedding of detail::result_storage_base (result_storage.hpp):
the raw union plus the discriminant field. -/
structure result_storage (V E : Type) where
  slot : result_slot V E
  _status : result_status
deriving DecidableEq, Repr

namespace result_storage

variable {V E : Type}

/-- The skip_init constructor (result_storage.hpp, lines 120-122 and
147-149): the union is left uninitialized and the member initializer
_status() value-initializes the char8_t-backed enum to its first
enumerator, result_status::failure. -/
def skip_init : result_storage V E :=
  ⟨result_slot.uninit, result_status.failure⟩

/-- result_storage::construct_value (result_storage.hpp, lines 206-219):
places the value alternative into the union and sets the discriminant to
success. -/
def construct_value (_s : result_storage V E) (v : V) : result_storage V E :=
  ⟨result_slot.value v, result_status.success⟩

/-- result_storage::construct_error (result_storage.hpp, lines 224-237):
places the error alternative into the union and sets the discriminant to
failure. -/
def construct_error (_s : result_storage V E) (e : E) : result_storage V E :=
  ⟨result_slot.error e, result_status.failure⟩

/-- Raw read of the union member _value.  Reading it while it is not the
live alternative is undefined behaviour in the source; the model returns
none there. -/
def read_value : result_slot V E → Option V
  | result_slot.value v => some v
  | _ => none

/-- Raw read of the union member _error, symmetric to read_value. -/
def read_error : result_slot V E → Option E
  | result_slot.error e => some e
  | _ => none

/-- Well-formedness: the discriminant and the live union alternative agree.
Every storage produced by the public constructors satisfies it. -/
def wf (s : result_storage V E) : Bool :=
  match s._status, s.slot with
  | result_status.success, result_slot.value _ => true
  | result_status.failure, result_slot.error _ => true
  | _, _ => false

/-- The non-trivial destructor (result_storage.hpp, lines 175-186):
destroys the union member selected by the discriminant.  It returns some
exactly when the member it touches is live. -/
def destroy (s : result_storage V E) : Option Unit :=
  if s._status = result_status.success then (read_value s.slot).map (fun _ => ())
  else (read_error s.slot).map (fun _ => ())

/-- The non-trivial copy constructor result_copy_constructor_base
(result_copy_constructor.hpp, lines 52-58): delegate to skip_init, then
branch on the source discriminant and construct the corresponding
alternative from the source union member. -/
def copy_construct (rhs : result_storage V E) : Option (result_storage V E) :=
  if rhs._status = result_status.success then
    (read_value rhs.slot).map (fun v => construct_value skip_init v)
  else
    (read_error rhs.slot).map (fun e => construct_error skip_init e)

/-- The non-trivial copy constructor for a reference payload,
result_copy_constructor_base for T-ref (result_copy_constructor.hpp, lines
69-75): delegate to skip_init, then branch on the source discriminant.  On
a failure source it constructs the error alternative from the source
error.  On a success source, line 73 calls construct_value(rhs._value),
passing the stored pointer member itself, not the referent: the only
construct_value overload of the reference storage (result_storage.hpp,
lines 332-338) takes a U lvalue reference under the constraint that a
U reference converts to a T reference, which is false when U is the
pointer type, so the call has no viable overload and the constructor body
is ill-formed whenever it is instantiated.  The success branch therefore
has no behaviour in the source; the model returns none for it.  (The
reference move constructor at result_move_constructor.hpp line 84 and the
converting constructors at result.hpp lines 572 and 585 pass the
dereferenced member instead; that variant does store the same borrow.) -/
def ref_copy_construct (rhs : result_storage Nat E) : Option (result_storage Nat E) :=
  if rhs._status = result_status.success then
    none
  else
    (read_error rhs.slot).map (fun e => construct_error skip_init e)

/-- The non-trivial move constructor result_move_constructor_base
(result_move_constructor.hpp, lines 58-67): delegate to skip_init, branch
on the source discriminant and construct the corresponding alternative
from the moved source member.  Moving a payload leaves an unspecified but
valid residue in the source member, modelled by arbitrary residue
functions mvV and mvE; the source discriminant is not written.  The
returned pair is (destination, source after the move). -/
def move_construct (mvV : V → V) (mvE : E → E) (rhs : result_storage V E) :
    Option (result_storage V E × result_storage V E) :=
  if rhs._status = result_status.success then
    (read_value rhs.slot).map (fun v =>
      (construct_value skip_init v, { rhs with slot := result_slot.value (mvV v) }))
  else
    (read_error rhs.slot).map (fun e =>
      (construct_error skip_init e, { rhs with slot := result_slot.error (mvE e) }))

end result_storage

/-- Embedding of the void-payload storage specialization
result_storage_base for void T (result_storage.hpp, lines 395-435): the
union holds only the error member (some = live, none = not constructed),
plus the discriminant. -/
structure void_result_storage (E : Type) where
  _error : Option E
  _status : result_status
deriving DecidableEq, Repr

namespace void_result_storage

variable {E : Type}

/-- The skip_init constructor of the void storage (result_storage.hpp,
lines 405-407): error member not constructed, discriminant
value-initialized to failure. -/
def skip_init : void_result_storage E :=
  ⟨none, result_status.failure⟩

/-- result_storage for void T ::construct_value (result_storage.hpp, lines
445-448): only sets the discriminant to success; the success alternative
occupies no storage. -/
def construct_value (s : void_result_storage E) : void_result_storage E :=
  { s with _status := result_status.success }

/-- result_storage for void T ::construct_error (result_storage.hpp, lines
453-466): constructs the error member and sets the discriminant to
failure. -/
def construct_error (_s : void_result_storage E) (e : E) : void_result_storage E :=
  ⟨some e, result_status.failure⟩

/-- Well-formedness of the void storage: on failure the error member is
live, on success it is not constructed. -/
def wf (s : void_result_storage E) : Bool :=
  match s._status with
  | result_status.failure => s._error.isSome
  | result_status.success => s._error.isNone

/-- The non-trivial move constructor result_move_constructor_base for void
T (result_move_constructor.hpp, lines 101-109): on success it only calls
construct_value() (nothing is moved and the source is untouched); on
failure it constructs the destination error from the moved source error,
leaving the residue mvE in the source member.  The source discriminant is
not written.  The returned pair is (destination, source after the move). -/
def move_construct (mvE : E → E) (rhs : void_result_storage E) :
    Option (void_result_storage E × void_result_storage E) :=
  if rhs._status = result_status.success then
    some (construct_value skip_init, rhs)
  else
    rhs._error.map (fun e =>
      (construct_error skip_init e, { rhs with _error := some (mvE e) }))

end void_result_storage

/-- Embedding of the exception type bad_option_access (option.hpp, lines
21-25). -/
structure bad_option_access where

/-- Outcome of calling option::value(): the contained value, a thrown
bad_option_access, or undefined behaviour from reading a dead union
member. -/
inductive value_outcome (T : Type) where
  | val (v : T)
  | raise
  | undef
deriving DecidableEq, Repr

/-- Embedding of detail::option_storage (option_base.hpp, lines 16-84):
the union of an empty marker and the value (some = value live, none =
empty marker live) plus the _has_value flag. -/
structure option_storage (T : Type) where
  _value : Option T
  _has_value : Bool
deriving DecidableEq, Repr

namespace option_storage

variable {T : Type}

/-- The default constructor of option_storage (option_base.hpp, lines
20-23), also reached by option() and option(none_t): the empty union
member is made live and _has_value is false. -/
def mk_empty : option_storage T :=
  ⟨none, false⟩

/-- The value constructor of option_storage (option_base.hpp, lines
25-29), reached by option(U and-and value): the value member is made live
and _has_value is true. -/
def from_value (v : T) : option_storage T :=
  ⟨some v, true⟩

/-- Well-formedness: the _has_value flag agrees with which union member is
live. -/
def wf (o : option_storage T) : Bool :=
  o._has_value == o._value.isSome

/-- option_base::has_value (option_base.hpp, lines 251-254). -/
def has_value (o : option_storage T) : Bool :=
  o._has_value

/-- option::value() (option.hpp, lines 203-207): returns get_value() when
has_value(), otherwise throws bad_option_access; get_value() reads the
union member _value, which is undefined behaviour if it is not live. -/
def value (o : option_storage T) : value_outcome T :=
  if o._has_value then
    match o._value with
    | some v => value_outcome.val v
    | none => value_outcome.undef
  else value_outcome.raise

/-- option_copy_assignment for non-trivial T ::operator=
(option_base.hpp, lines 159-182): both engaged, assign the payload in
place (the self-assignment address check is an optimization with no
observable effect in a value model); only the destination engaged, destroy
its payload and clear the flag; only the source engaged, construct the
payload from the source and set the flag; both empty, do nothing. -/
def copy_assign (dst src : option_storage T) : option_storage T :=
  if dst._has_value && src._has_value then
    { dst with _value := src._value }
  else if dst._has_value && !src._has_value then
    ⟨none, false⟩
  else if !dst._has_value && src._has_value then
    ⟨src._value, true⟩
  else dst

end option_storage

end ext

namespace ext

/-- Claim C1: for every constructed result, exactly one of is_success and
is_failure holds, value() raises bad_result_access iff is_failure(), and
error() raises bad_result_access iff is_success(). -/
theorem result_access_discipline {T E : Type} (r : result T E) :
    (r.is_success = true ↔ r.is_failure = false)
    ∧ (r.value = Except.error ⟨⟩ ↔ r.is_failure = true)
    ∧ (r.error = Except.error ⟨⟩ ↔ r.is_success = true) := by
  cases r <;>
    simp [result.is_success, result.is_failure, result.status, result.value, result.error]

/-- Claim C2: bind short-circuits.  For a failure result the returned value
is a failure carrying the original error and does not depend on f at all
(the function is never invoked: the right-hand side mentions only the
error); for a success result bind returns f applied to the contained value
directly. -/
theorem result_bind_short_circuit {T E U : Type} :
    (∀ (e : E) (f : T → result U E),
      (result.failure e : result T E).bind f = Except.ok (result.failure e))
    ∧ (∀ (v : T) (f : T → result U E),
      (result.success v : result T E).bind f = Except.ok (f v)) := by
  constructor
  · intro e f
    rfl
  · intro v f
    rfl

/-- Claim C3: apply checks the receiver's state before the argument's.  A
failure receiver propagates its own error whatever rhs is (even a failure);
a success receiver with a failure rhs propagates rhs's error; two successes
yield a success wrapping the application of rhs's contained function to the
receiver's value. -/
theorem result_apply_short_circuit_order {T E U : Type} :
    (∀ (e : E) (rhs : result (T → U) E),
      (result.failure e : result T E).apply rhs = Except.ok (result.failure e))
    ∧ (∀ (v : T) (e : E),
      (result.success v : result T E).apply (result.failure e : result (T → U) E)
        = Except.ok (result.failure e))
    ∧ (∀ (v : T) (f : T → U),
      (result.success v : result T E).apply (result.success f)
        = Except.ok (result.success (f v))) := by
  refine ⟨?_, ?_, ?_⟩
  · intro e rhs
    rfl
  · intro v e
    rfl
  · intro v f
    rfl

/-- Claim C4: functor laws for map.  Mapping the identity preserves the
result structurally; chaining map f then map g on a success result (the
chaining expressed with Except.bind, since map threads the throwing
accessors through Except) equals a single map of the composition; mapping
over a failure result passes the error through unchanged and does not
depend on f. -/
theorem result_map_functor_laws {T E U W : Type} :
    (∀ (r : result T E), r.map id = Except.ok r)
    ∧ (∀ (v : T) (f : T → U) (g : U → W),
      Except.bind ((result.success v : result T E).map f) (fun r => r.map g)
        = (result.success v : result T E).map (fun x => g (f x)))
    ∧ (∀ (e : E) (f : T → U),
      (result.failure e : result T E).map f = Except.ok (result.failure e)) := by
  refine ⟨?_, ?_, ?_⟩
  · intro r
    cases r <;> rfl
  · intro v f g
    rfl
  · intro e f
    rfl

/-- Claim C7: the combinators map, bind and apply are total: on every result
state and for every function argument they return an ok outcome, never a
bad_result_access, because each checks the discriminant before calling the
throwing accessors value() / error(). -/
theorem result_combinators_never_raise {T E U : Type} :
    (∀ (r : result T E) (f : T → U), ∃ x, r.map f = Except.ok x)
    ∧ (∀ (r : result T E) (f : T → result U E), ∃ x, r.bind f = Except.ok x)
    ∧ (∀ (r : result T E) (rhs : result (T → U) E), ∃ x, r.apply rhs = Except.ok x) := by
  refine ⟨?_, ?_, ?_⟩
  · intro r f
    cases r <;> exact ⟨_, rfl⟩
  · intro r f
    cases r <;> exact ⟨_, rfl⟩
  · intro r rhs
    cases r <;> cases rhs <;> exact ⟨_, rfl⟩

/-- Claim C5 (code bug): the generic non-trivial copy constructor does
preserve the discriminant and the live payload, evaluated here on a
success and on a failure source; but the claim's reference-payload part
fails on the code.  Copy-constructing a success reference result has no
behaviour at all: result_copy_constructor.hpp line 73 passes the
undereferenced pointer member to construct_value, for which the reference
storage offers no viable overload, instead of passing the referent as the
reference move constructor and the converting constructors do.  So the
non-trivial reference copy constructor never duplicates the borrow (its
failure branch, which involves no borrow, still works), while the spec and
the parallel constructors show that duplicating the borrow was the
intent. -/
theorem result_copy_reference_path_code_bug :
    result_storage.copy_construct
        (⟨result_slot.value 3, result_status.success⟩ : result_storage Nat Nat)
      = some ⟨result_slot.value 3, result_status.success⟩
    ∧ result_storage.copy_construct
        (⟨result_slot.error 4, result_status.failure⟩ : result_storage Nat Nat)
      = some ⟨result_slot.error 4, result_status.failure⟩
    ∧ result_storage.ref_copy_construct
        (⟨result_slot.value 7, result_status.success⟩ : result_storage Nat Nat)
      = none
    ∧ result_storage.ref_copy_construct
        (⟨result_slot.error 9, result_status.failure⟩ : result_storage Nat Nat)
      = some ⟨result_slot.error 9, result_status.failure⟩ :=
  ⟨rfl, rfl, rfl, rfl⟩

/-- Claim C6: the non-trivial move constructor gives the destination the
source's pre-move status and payload (in particular a success source yields
a success destination carrying the moved value), and the moved-from source
is still well-formed, so the destructor destroys exactly its live
alternative (it remains destructible), for every payload-move residue. -/
theorem result_move_destination_and_source {V E : Type}
    (mvV : V → V) (mvE : E → E) (r : result_storage V E) (h : r.wf = true) :
    ∃ dst src, result_storage.move_construct mvV mvE r = some (dst, src)
      ∧ dst._status = r._status
      ∧ (∀ v, r.slot = result_slot.value v → dst.slot = result_slot.value v)
      ∧ (∀ e, r.slot = result_slot.error e → dst.slot = result_slot.error e)
      ∧ src.wf = true
      ∧ result_storage.destroy src = some () := by
  obtain ⟨slot, st⟩ := r
  cases slot <;> cases st <;>
    simp_all [result_storage.wf, result_storage.move_construct, result_storage.read_value,
      result_storage.read_error, result_storage.construct_value,
      result_storage.construct_error, result_storage.skip_init, result_storage.destroy] <;>
    exact ⟨_, _, ⟨rfl, rfl⟩, rfl, rfl, rfl, rfl⟩

/-- Closed witness for the claim C6 theorem at concrete inputs. -/
theorem result_move_destination_and_source_witness :
    ∃ dst src,
      result_storage.move_construct (fun _ => 0) (fun b => b)
          (⟨result_slot.value 5, result_status.success⟩ : result_storage Nat Bool)
        = some (dst, src)
      ∧ dst._status = result_status.success
      ∧ (∀ v, (result_slot.value 5 : result_slot Nat Bool) = result_slot.value v →
          dst.slot = result_slot.value v)
      ∧ (∀ e, (result_slot.value 5 : result_slot Nat Bool) = result_slot.error e →
          dst.slot = result_slot.error e)
      ∧ src.wf = true
      ∧ result_storage.destroy src = some () :=
  result_move_destination_and_source (fun _ => 0) (fun b => b) _ rfl

/-- Claim C10: move construction never writes the source discriminant.
For the generic storage and for the void-payload specialization alike, the
source's status after the move equals its pre-move status (a moved-from
success still reports success) and the source stays well-formed: only the
payload is left in a moved-from state. -/
theorem result_move_source_status_frame {V E F : Type} :
    (∀ (mvV : V → V) (mvE : E → E) (r : result_storage V E), r.wf = true →
      ∃ p, result_storage.move_construct mvV mvE r = some p
        ∧ p.2._status = r._status ∧ p.2.wf = true)
    ∧ (∀ (mvE : F → F) (r : void_result_storage F), r.wf = true →
      ∃ p, void_result_storage.move_construct mvE r = some p
        ∧ p.2._status = r._status ∧ p.2.wf = true) := by
  constructor
  · intro mvV mvE r h
    obtain ⟨slot, st⟩ := r
    cases slot <;> cases st <;>
      simp_all [result_storage.wf, result_storage.move_construct, result_storage.read_value,
        result_storage.read_error, result_storage.construct_value,
        result_storage.construct_error, result_storage.skip_init]
  · intro mvE r h
    obtain ⟨err, st⟩ := r
    cases err <;> cases st <;>
      simp_all [void_result_storage.wf, void_result_storage.move_construct,
        void_result_storage.construct_value, void_result_storage.construct_error,
        void_result_storage.skip_init]

/-- Closed witness for the claim C10 theorem at concrete inputs, one for
the generic storage (a success source) and one for the void-payload
specialization (a failure source). -/
theorem result_move_source_status_frame_witness :
    (∃ p, result_storage.move_construct (fun n => n + 1) (fun b => b)
          (⟨result_slot.value 2, result_status.success⟩ : result_storage Nat Bool)
        = some p
      ∧ p.2._status = result_status.success ∧ p.2.wf = true)
    ∧ (∃ p, void_result_storage.move_construct (fun n => n)
          (⟨some 9, result_status.failure⟩ : void_result_storage Nat)
        = some p
      ∧ p.2._status = result_status.failure ∧ p.2.wf = true) :=
  ⟨(@result_move_source_status_frame Nat Bool Nat).1 (fun n => n + 1) (fun b => b) _ rfl,
    (@result_move_source_status_frame Nat Bool Nat).2 (fun n => n) _ rfl⟩

/-- Claim C9: a default-constructed (or none-constructed) option has no
value and value() throws bad_option_access; an option constructed from a
value v has a value and value() returns v. -/
theorem option_ctor_and_access {T : Type} (v : T) :
    (option_storage.mk_empty : option_storage T).has_value = false
    ∧ (option_storage.mk_empty : option_storage T).value = value_outcome.raise
    ∧ (option_storage.from_value v).has_value = true
    ∧ (option_storage.from_value v).value = value_outcome.val v :=
  ⟨rfl, rfl, rfl, rfl⟩

/-- Claim C8: copy assignment of options follows the four-case discipline
of option_copy_assignment: both engaged, payload assigned in place; only
the destination engaged, it becomes empty; only the source engaged, the
destination payload is constructed from the source payload; both empty, a
no-op.  Afterwards the destination's engagement equals the source's, its
value equals the source's when the source is engaged, and well-formedness
is preserved. -/
theorem option_copy_assignment_cases {T : Type} (dst src : option_storage T)
    (h1 : dst.wf = true) (h2 : src.wf = true) :
    (option_storage.copy_assign dst src).has_value = src.has_value
    ∧ (src.has_value = true →
        (option_storage.copy_assign dst src).value = src.value)
    ∧ (option_storage.copy_assign dst src).wf = true
    ∧ (dst.has_value = true → src.has_value = true →
        option_storage.copy_assign dst src = { dst with _value := src._value })
    ∧ (dst.has_value = true → src.has_value = false →
        option_storage.copy_assign dst src = option_storage.mk_empty)
    ∧ (dst.has_value = false → src.has_value = true →
        option_storage.copy_assign dst src = ⟨src._value, true⟩)
    ∧ (dst.has_value = false → src.has_value = false →
        option_storage.copy_assign dst src = dst) := by
  obtain ⟨dv, db⟩ := dst
  obtain ⟨sv, sb⟩ := src
  cases db <;> cases sb <;> cases dv <;> cases sv <;>
    simp_all [option_storage.wf, option_storage.copy_assign, option_storage.has_value,
      option_storage.value, option_storage.mk_empty]

/-- Closed witness for the claim C8 theorem at concrete inputs. -/
theorem option_copy_assignment_cases_witness :
    (option_storage.copy_assign (⟨some 1, true⟩ : option_storage Nat) ⟨some 4, true⟩).has_value
        = (⟨some 4, true⟩ : option_storage Nat).has_value
    ∧ ((⟨some 4, true⟩ : option_storage Nat).has_value = true →
        (option_storage.copy_assign (⟨some 1, true⟩ : option_storage Nat) ⟨some 4, true⟩).value
          = (⟨some 4, true⟩ : option_storage Nat).value)
    ∧ (option_storage.copy_assign (⟨some 1, true⟩ : option_storage Nat) ⟨some 4, true⟩).wf = true
    ∧ ((⟨some 1, true⟩ : option_storage Nat).has_value = true →
        (⟨some 4, true⟩ : option_storage Nat).has_value = true →
        option_storage.copy_assign (⟨some 1, true⟩ : option_storage Nat) ⟨some 4, true⟩
          = ⟨some 4, true⟩)
    ∧ ((⟨some 1, true⟩ : option_storage Nat).has_value = true →
        (⟨some 4, true⟩ : option_storage Nat).has_value = false →
        option_storage.copy_assign (⟨some 1, true⟩ : option_storage Nat) ⟨some 4, true⟩
          = option_storage.mk_empty)
    ∧ ((⟨some 1, true⟩ : option_storage Nat).has_value = false →
        (⟨some 4, true⟩ : option_storage Nat).has_value = true →
        option_storage.copy_assign (⟨some 1, true⟩ : option_storage Nat) ⟨some 4, true⟩
          = ⟨some 4, true⟩)
    ∧ ((⟨some 1, true⟩ : option_storage Nat).has_value = false →
        (⟨some 4, true⟩ : option_storage Nat).has_value = false →
        option_storage.copy_assign (⟨some 1, true⟩ : option_storage Nat) ⟨some 4, true⟩
          = ⟨some 1, true⟩) :=
  option_copy_assignment_cases ⟨some 1, true⟩ ⟨some 4, true⟩ rfl rfl

end ext
